import Mathlib

/-!
Verification of the wikscrstr track-geometry analysis engine.

The definitions below are a shallow embedding of the Python sources:
`GeometryEngine`, `WikilocHarvester.analyze_track_deep` and the
persistence layer from `wikiloc_scraper_engine.py`, the scoring pipeline
of `MushroomTrackDetector.analyze_gpx` from `mushroom_detector.py`, and
`WikilocScraperPro.is_obfuscated_title` from `wikiloc_scraper.py`.
Machine floats are modelled as real numbers; Python dictionaries as
association lists; Python exceptions as `Except` values.
-/

namespace Wikscr

/-! ### GeometryEngine (wikiloc_scraper_engine.py, lines 83-166) -/

/-- `np.radians`: degrees to radians. -/
noncomputable def radians (x : ℝ) : ℝ := x * (Real.pi / 180)

/-- `np.degrees`: radians to degrees. -/
noncomputable def degrees (x : ℝ) : ℝ := x * (180 / Real.pi)

/-- `np.arctan2 y x`, the two-argument arctangent with range `(-pi, pi]`
and `arctan2 0 0 = 0`. -/
noncomputable def atan2 (y x : ℝ) : ℝ :=
  if 0 < x then Real.arctan (y / x)
  else if x < 0 ∧ 0 ≤ y then Real.arctan (y / x) + Real.pi
  else if x < 0 then Real.arctan (y / x) - Real.pi
  else if 0 < y then Real.pi / 2
  else if y < 0 then -(Real.pi / 2)
  else 0

/-- Haversine great-circle distance between two (lat, lon) points, Earth
radius 6371.0 km, exactly as in `GeometryEngine.haversine_vectorized` and
in the displacement computation of `calculate_tortuosity`. -/
noncomputable def havDist (p q : ℝ × ℝ) : ℝ :=
  let lat1 := radians p.1
  let lat2 := radians q.1
  let dlat := lat2 - lat1
  let dlon := radians q.2 - radians p.2
  let a := Real.sin (dlat / 2) ^ 2 +
    Real.cos lat1 * Real.cos lat2 * Real.sin (dlon / 2) ^ 2
  6371.0 * (2 * atan2 (Real.sqrt a) (Real.sqrt (1 - a)))

/-- Distances between consecutive points (the `np.diff`-based body of
`haversine_vectorized` for two or more points). -/
noncomputable def pairwiseHav : List (ℝ × ℝ) → List ℝ
  | p :: q :: rest => havDist p q :: pairwiseHav (q :: rest)
  | _ => []

/-- `GeometryEngine.haversine_vectorized`: consecutive distances; fewer
than 2 points yields the single entry `[0.0]`. -/
noncomputable def haversine_vectorized (coords : List (ℝ × ℝ)) : List ℝ :=
  if coords.length < 2 then [0] else pairwiseHav coords

/-- Straight-line (great-circle) distance between the first and the last
point, as computed inline in `calculate_tortuosity` (lines 119-125). -/
noncomputable def displacement (coords : List (ℝ × ℝ)) : ℝ :=
  havDist (coords.headD (0, 0)) (coords.getLastD (0, 0))

/-- `GeometryEngine.calculate_tortuosity` (lines 106-130): 0.0 below 10
points; `total_length * 2` when the displacement is below 0.1 km;
otherwise `total_length / displacement`. -/
noncomputable def calculate_tortuosity (coords : List (ℝ × ℝ)) : ℝ :=
  if coords.length < 10 then 0.0
  else
    let total_length := (haversine_vectorized coords).sum
    if displacement coords < 0.1 then total_length * 2
    else total_length / displacement coords

/-- Initial spherical bearing between two points in degrees
(lines 143-147 of `detect_search_patterns`, one vector entry). -/
noncomputable def bearing (p q : ℝ × ℝ) : ℝ :=
  let lat1 := radians p.1
  let lat2 := radians q.1
  let dlon := radians q.2 - radians p.2
  let y := Real.sin dlon * Real.cos lat2
  let x := Real.cos lat1 * Real.sin lat2 -
    Real.sin lat1 * Real.cos lat2 * Real.cos dlon
  degrees (atan2 y x)

/-- Bearings of all consecutive point pairs. -/
noncomputable def bearingsOf : List (ℝ × ℝ) → List ℝ
  | p :: q :: rest => bearing p q :: bearingsOf (q :: rest)
  | _ => []

/-- `np.diff` on a list of reals. -/
noncomputable def diffsOf : List ℝ → List ℝ
  | a :: b :: rest => (b - a) :: diffsOf (b :: rest)
  | _ => []

/-- numpy float modulo: `x % y = x - y * floor (x / y)`; for positive `y`
the result lies in `[0, y)`. -/
noncomputable def npMod (x y : ℝ) : ℝ := x - y * (⌊x / y⌋ : ℤ)

/-- Line 152: `(bearing_diff + 180) % 360 - 180`. -/
noncomputable def normalizeDelta (d : ℝ) : ℝ := npMod (d + 180) 360 - 180

/-- The normalized first differences of the consecutive bearings of a
point sequence (lines 149-152). -/
noncomputable def normDeltas (coords : List (ℝ × ℝ)) : List ℝ :=
  (diffsOf (bearingsOf coords)).map normalizeDelta

/-- Arithmetic mean of a list (`np.mean`). -/
noncomputable def listMean (xs : List ℝ) : ℝ := xs.sum / xs.length

/-- `np.std` with its default `ddof = 0`: the population standard
deviation, the square root of the mean squared deviation. -/
noncomputable def popStd (xs : List ℝ) : ℝ :=
  Real.sqrt ((xs.map (fun x => (x - listMean xs) ^ 2)).sum / xs.length)

/-- Values held in the dictionaries returned by
`detect_search_patterns` (floats or the Python boolean `False`). -/
inductive PyVal where
  | num (x : ℝ)
  | bool (b : Bool)

/-- Line 158-160: fraction of consecutive segments shorter than 0.005 km. -/
noncomputable def stopRatio (coords : List (ℝ × ℝ)) : ℝ :=
  let dists := haversine_vectorized coords
  ((dists.filter (fun d => decide (d < 0.005))).length : ℝ) / (dists.length : ℝ)

/-- `GeometryEngine.detect_search_patterns` (lines 132-166).  Note that
the two branches return dictionaries with different key sets, exactly as
in the source: the short branch has keys `stops`, `entropy`, `is_search`
while the long branch has `bearing_std`, `stop_ratio`, `score`. -/
noncomputable def detect_search_patterns (coords : List (ℝ × ℝ)) :
    List (String × PyVal) :=
  if coords.length < 50 then
    [("stops", PyVal.num 0), ("entropy", PyVal.num 0),
     ("is_search", PyVal.bool false)]
  else
    let directional_chaos := popStd (normDeltas coords)
    let stop_ratio := stopRatio coords
    [("bearing_std", PyVal.num directional_chaos),
     ("stop_ratio", PyVal.num stop_ratio),
     ("score", PyVal.num (directional_chaos * 0.5 + stop_ratio * 100))]

/-! ### Persistence (DatabaseManager and DB_SCHEMA, lines 52-190) -/

/-- One row of the `tracks` table; `id` is the PRIMARY KEY of the schema
(line 54), `external_id` a plain column (line 55). -/
structure TrackRow where
  id : String
  external_id : String
  mushroom_probability : ℝ

/-- `DatabaseManager.save_track`: `INSERT OR REPLACE INTO tracks`.
SQLite replaces exactly the rows conflicting on the PRIMARY KEY `id`
(the only uniqueness constraint of the schema) and inserts the new row. -/
def save_track (db : List TrackRow) (r : TrackRow) : List TrackRow :=
  db.filter (fun x => x.id != r.id) ++ [r]

/-- The rows of the table holding a given `external_id`. -/
def rowsForExternalId (db : List TrackRow) (eid : String) : List TrackRow :=
  db.filter (fun x => x.external_id == eid)

/-- The rows of the table holding a given primary key `id`. -/
def rowsForId (db : List TrackRow) (i : String) : List TrackRow :=
  db.filter (fun x => x.id == i)

/-! ### Title-text utilities shared by the scorers -/

/-- `str.lower()` on a list of characters. -/
def lowerChars (t : List Char) : List Char := t.map Char.toLower

/-- `str.strip()`: remove leading and trailing whitespace. -/
def stripChars (t : List Char) : List Char :=
  ((t.dropWhile Char.isWhitespace).reverse.dropWhile Char.isWhitespace).reverse

/-- Whether `hay` starts with `needle`. -/
def beginsWith : List Char → List Char → Bool
  | _, [] => true
  | [], _ :: _ => false
  | c :: t, d :: s => c = d && beginsWith t s

/-- Python substring containment `needle in hay`. -/
def containsSub (hay needle : List Char) : Bool :=
  match hay with
  | [] => needle.isEmpty
  | _ :: t => beginsWith hay needle || containsSub t needle

/-- `any(k in hay for k in needles)`. -/
def containsAnySub (needles : List (List Char)) (hay : List Char) : Bool :=
  needles.any (fun n => containsSub hay n)

/-- `dict.fromkeys(list(text))`: the distinct characters of a text in
order of first occurrence. -/
def dedupFirst (t : List Char) : List Char :=
  t.foldl (fun acc c => if acc.contains c then acc else acc ++ [c]) []

/-! ### MushroomTrackDetector (mushroom_detector.py) -/

/-- The `suspicious_list` of `_calculate_name_entropy` (line 25). -/
def suspiciousList : List (List Char) :=
  ["anon", "track", "ruta", "actividad", "ghgh", "asdf", "temp"].map String.toList

/-- Shannon entropy of the character distribution of a text, base 2,
exactly the `prob`/`entropy` computation of lines 31-32
(`p * log p / log 2` summed over the distinct characters). -/
noncomputable def shannonEntropy (text : List Char) : ℝ :=
  -(((dedupFirst text).map (fun c =>
      ((text.count c : ℝ) / (text.length : ℝ)) *
        Real.logb 2 ((text.count c : ℝ) / (text.length : ℝ)))).sum)

/-- `MushroomTrackDetector._calculate_name_entropy` (lines 21-37):
1.0 when the lowered, stripped text contains a suspicious term; 0 for
the empty text; 0.8 when the entropy is below 1.5 or the text is
shorter than 5 characters; otherwise 0.0. -/
noncomputable def calculate_name_entropy (raw : List Char) : ℝ :=
  let text := stripChars (lowerChars raw)
  if containsAnySub suspiciousList text then 1.0
  else if text.isEmpty then 0
  else if shannonEntropy text < 1.5 ∨ text.length < 5 then 0.8
  else 0.0

/-- `MushroomTrackDetector._check_seasonality` (lines 39-47), with the
date abstracted to its optional month number. -/
noncomputable def check_seasonality (date : Option ℕ) : ℝ :=
  match date with
  | none => 0
  | some month =>
    if month = 9 ∨ month = 10 ∨ month = 11 then 1.0
    else if month = 12 ∨ month = 5 ∨ month = 6 then 0.6
    else 0.1

/-- Speed component of `analyze_gpx` (lines 101-103): 100 inside the
band `[0.5, 3.0]`, the constant 80 below it, `max 0 (100 - (v-3)*40)`
above it. -/
noncomputable def speedScore (avg_speed : ℝ) : ℝ :=
  if 0.5 ≤ avg_speed ∧ avg_speed ≤ 3.0 then 100
  else if avg_speed < 0.5 then 80
  else max 0 (100 - (avg_speed - 3) * 40)

/-- Tortuosity component of `analyze_gpx` (lines 107-108):
`min 100 ((t - 1.2) * 25)` clamped below at 0. -/
noncomputable def tortScore (tortuosity : ℝ) : ℝ :=
  max 0 (min 100 ((tortuosity - 1.2) * 25))

/-- The explicit keyword list of `analyze_gpx` (line 121). -/
def detectorKeywords : List (List Char) :=
  ["seta", "boletus", "hongo", "cesta", "rebollon"].map String.toList

/-- The characters of the word checked at line 123. -/
def nadaChars : List Char := "nada".toList

/-- The `bonus` of `analyze_gpx` (lines 120-124): 100 for an explicit
keyword, plus 50 when the name contains "nada" and the tortuosity
component exceeds 50. -/
noncomputable def detectorBonus (nameLower : List Char) (score_tort : ℝ) : ℝ :=
  (if containsAnySub detectorKeywords nameLower then 100 else 0) +
  (if containsSub nameLower nadaChars = true ∧ 50 < score_tort then 50 else 0)

/-- The final weighted score of `MushroomTrackDetector.analyze_gpx`
(lines 127-136), as a function of the extracted features: the track
name, the tortuosity index, the average speed in km/h and the optional
recording month.  The weights 0.25/0.35/0.15/0.15 are the calibrated
values of lines 13-19. -/
noncomputable def detectorTotal (track_name : List Char)
    (tortuosity avg_speed : ℝ) (month : Option ℕ) : ℝ :=
  let score_speed := speedScore avg_speed
  let score_tort := tortScore tortuosity
  let score_name := calculate_name_entropy track_name * 100
  let score_season := check_seasonality month * 100
  let bonus := detectorBonus (lowerChars track_name) score_tort
  let total := score_speed * 0.25 + score_tort * 0.35 +
    score_name * 0.15 + score_season * 0.15
  let clamped := min 100 (total + bonus * 0.5)
  if bonus = 100 then 100 else clamped

/-! ### WikilocHarvester.analyze_track_deep (lines 367-413) -/

/-- The explicit keyword list of `analyze_track_deep` (line 401). -/
def engineKeywords : List (List Char) :=
  ["seta", "boletus", "cesta", "rebollon"].map String.toList

/-- The generic-name keyword list of `analyze_track_deep` (line 394). -/
def genericKeywords : List (List Char) :=
  ["paseo", "vuelta", "ruta", "camino", "senderismo", "mañana"].map String.toList

/-- The additive mushroom score of `analyze_track_deep` (lines 382-402),
before the final clamp. -/
noncomputable def engineScore (tortuosity bearing_std stop_ratio : ℝ)
    (title : List Char) : ℝ :=
  let title_lower := lowerChars title
  (if 2.5 < tortuosity then 30 else if 1.5 < tortuosity then (15 : ℝ) else 0) +
  (if 40 < bearing_std then (20 : ℝ) else 0) +
  (if 0.3 < stop_ratio then (10 : ℝ) else 0) +
  (if containsAnySub genericKeywords title_lower = true ∧ 1.8 < tortuosity
    then (30 : ℝ) else 0) +
  (if containsAnySub engineKeywords title_lower then (100 : ℝ) else 0)

/-- Line 409: `"mushroom_probability": min(100, score)`. -/
noncomputable def engineProbability (tortuosity bearing_std stop_ratio : ℝ)
    (title : List Char) : ℝ :=
  min 100 (engineScore tortuosity bearing_std stop_ratio title)

/-- The track metadata dictionary built in `scrape_grid_sector`
(lines 456-464) and extended by `analyze_track_deep` (lines 404-411).
Keys absent from the Python dictionary are `none`. -/
structure Metadata where
  external_id : String
  title : List Char
  total_dist_km : ℝ
  has_zigzag : Option Bool := none
  tortuosity_index : Option ℝ := none
  stop_count : Option ℤ := none
  entropy_score : Option ℝ := none
  mushroom_probability : Option ℝ := none
  raw_coords : Option (List (ℝ × ℝ)) := none

/-- Python `round(x, 2)` (modelled as round-half-up on the reals). -/
noncomputable def pyRound2 (x : ℝ) : ℝ := (⌊x * 100 + 1 / 2⌋ : ℤ) / 100

/-- Dictionary access returning a float, `none` when the key is absent
or not numeric. -/
noncomputable def lookupNum (pat : List (String × PyVal)) (key : String) :
    Option ℝ :=
  match List.lookup key pat with
  | some (PyVal.num x) => some x
  | _ => none

/-- `WikilocHarvester.analyze_track_deep` (lines 367-413) given the
coordinates already extracted from the page.  With no coordinates the
metadata is returned unchanged (line 376).  Otherwise the geometry is
analyzed; the subscript accesses `patterns['bearing_std']` and
`patterns['stop_ratio']` (lines 389-390) raise a Python `KeyError` when
the key is absent, modelled by the `Except.error` branch. -/
noncomputable def analyze_track_deep (coords : List (ℝ × ℝ))
    (metadata : Metadata) : Except String Metadata :=
  if coords.isEmpty then Except.ok metadata
  else
    let tortuosity := calculate_tortuosity coords
    let patterns := detect_search_patterns coords
    match lookupNum patterns "bearing_std", lookupNum patterns "stop_ratio",
        lookupNum patterns "score" with
    | some bearing_std, some stop_ratio, some pattern_score =>
      Except.ok { metadata with
        has_zigzag := some (decide (40 < bearing_std)),
        tortuosity_index := some (pyRound2 tortuosity),
        stop_count := some ⌊stop_ratio * 100⌋,
        entropy_score := some (pyRound2 pattern_score),
        mushroom_probability :=
          some (engineProbability tortuosity bearing_std stop_ratio metadata.title),
        raw_coords := some (coords.take 500) }
    | _, _, _ => Except.error "KeyError"

/-- The save decision of `scrape_grid_sector` (line 470):
`final_data.get('mushroom_probability', 0) > 20`. -/
noncomputable def shouldSave (m : Metadata) : Bool :=
  decide (20 < m.mushroom_probability.getD 0)

/-- The records actually persisted by the `scrape_grid_sector` loop
(lines 470-471), out of a batch of analyzed results. -/
noncomputable def savedTracks (results : List Metadata) : List Metadata :=
  results.filter shouldSave

/-! ### WikilocScraperPro.is_obfuscated_title (wikiloc_scraper.py, 76-102) -/

/-- The `generic_names` denylist (line 92). -/
def genericNames : List (List Char) :=
  ["ruta", "track", "camino", "paseo", "vuelta", "sin titulo", "unnamed"].map
    String.toList

/-- `WikilocScraperPro.is_obfuscated_title` (lines 76-102): lower and
strip the title; flag titles shorter than 4 characters, titles matching
the repetition regex `^(.)\1+$`, exact matches of the denylist, and
long titles with fewer than 3 distinct characters. -/
def is_obfuscated_title (raw : List Char) : Bool :=
  let title := stripChars (lowerChars raw)
  if title.length < 4 then true
  else
    match title with
    | [] => false
    | c :: rest =>
      if rest ≠ [] ∧ rest.all (fun d => d = c) then true
      else if genericNames.contains title then true
      else if 6 < title.length ∧ (dedupFirst title).length < 3 then true
      else false

/-! ### Theorems for claims C2, C4 -/

/-- The distance of a point to itself is zero. -/
theorem havDist_self (p : ℝ × ℝ) : havDist p p = 0 := by
  unfold havDist atan2
  simp [Real.sqrt_one]

/-- Claim C2 (confirmed): for every point sequence with at least 10
points whose great-circle displacement between first and last point is
below 0.1 km, `calculate_tortuosity` returns exactly twice the total
path length, the sum of the consecutive haversine distances. -/
theorem C2_loop_tortuosity (coords : List (ℝ × ℝ))
    (h10 : 10 ≤ coords.length) (hd : displacement coords < 0.1) :
    calculate_tortuosity coords = 2 * (haversine_vectorized coords).sum := by
  unfold calculate_tortuosity
  rw [if_neg (by omega), if_pos hd]
  ring

/-- Witness for C2: ten copies of the point (40, -3) form a sequence of
length 10 with displacement 0, and the theorem applies to it. -/
theorem C2_loop_tortuosity_witness :
    calculate_tortuosity (List.replicate 10 ((40 : ℝ), (-3 : ℝ))) =
      2 * (haversine_vectorized (List.replicate 10 ((40 : ℝ), (-3 : ℝ)))).sum := by
  refine C2_loop_tortuosity _ (by simp) ?_
  have h : displacement (List.replicate 10 ((40 : ℝ), (-3 : ℝ))) = 0 := by
    unfold displacement
    rw [show (List.replicate 10 ((40 : ℝ), (-3 : ℝ))).headD (0, 0) = ((40 : ℝ), (-3 : ℝ)) by rfl]
    rw [show (List.replicate 10 ((40 : ℝ), (-3 : ℝ))).getLastD (0, 0) = ((40 : ℝ), (-3 : ℝ)) by rfl]
    exact havDist_self _
  rw [h]; norm_num

/-- Claim C4 counterexample: `save_track` does not upsert on
`external_id`.  Saving two records that agree on `external_id` but have
the two distinct primary keys "a" and "b" (as produced from two distinct
page URLs) and distinct scores 30 and 50 leaves two rows for that
`external_id`, not one. -/
theorem C4_two_rows_same_external_id :
    (30 : ℝ) ≠ 50 ∧
    (rowsForExternalId
      (save_track
        (save_track [] { id := "a", external_id := "X", mushroom_probability := 30 })
        { id := "b", external_id := "X", mushroom_probability := 50 })
      "X").length = 2 := by
  constructor
  · norm_num
  · rfl

/-- Claim C4 amended: the upsert is keyed by the primary-key column
`id`, not by `external_id`.  Storing two records with the same `id`
leaves exactly one row for that `id`, holding the values of the later
write. -/
theorem C4_upsert_keyed_by_id (db : List TrackRow) (r1 r2 : TrackRow)
    (h : r1.id = r2.id) :
    rowsForId (save_track (save_track db r1) r2) r1.id = [r2] := by
  have key : ∀ l : List TrackRow,
      List.filter (fun x => x.id == r2.id) (List.filter (fun x => x.id != r2.id) l) = [] := by
    intro l
    rw [List.filter_eq_nil_iff]
    intro a ha hbeq
    have hne := List.of_mem_filter ha
    simp only [bne_iff_ne, ne_eq] at hne
    exact hne (by simpa using hbeq)
  unfold rowsForId save_track
  rw [h, List.filter_append, key, List.nil_append]
  simp

/-- Witness for the amended C4: overwriting the row with primary key "a"
(score 30) by a new record with the same key and score 50 leaves exactly
the new record. -/
theorem C4_upsert_keyed_by_id_witness :
    rowsForId
      (save_track
        (save_track [] { id := "a", external_id := "X", mushroom_probability := 30 })
        { id := "a", external_id := "X", mushroom_probability := 50 })
      "a" = [{ id := "a", external_id := "X", mushroom_probability := 50 }] :=
  C4_upsert_keyed_by_id [] _ _ rfl

/-! ### Component bounds -/

/-- The speed component always lies in [0, 100]. -/
theorem speedScore_bounds (v : ℝ) : 0 ≤ speedScore v ∧ speedScore v ≤ 100 := by
  unfold speedScore
  split_ifs with h1 h2
  · norm_num
  · norm_num
  · push_neg at h1 h2
    have h3 : 3.0 < v := h1 h2
    exact ⟨le_max_left _ _, max_le (by norm_num) (by nlinarith)⟩

/-- The tortuosity component always lies in [0, 100]. -/
theorem tortScore_bounds (t : ℝ) : 0 ≤ tortScore t ∧ tortScore t ≤ 100 :=
  ⟨le_max_left _ _, max_le (by norm_num) (min_le_left _ _)⟩

/-- `0 ≤ if p then a else b` for nonnegative branches. -/
theorem iteNonneg {p : Prop} [Decidable p] {a b : ℝ} (ha : 0 ≤ a) (hb : 0 ≤ b) :
    0 ≤ if p then a else b := by
  split_ifs <;> assumption

/-- The name-suspicion value is one of 0, 0.8, 1. -/
theorem calculate_name_entropy_mem (raw : List Char) :
    calculate_name_entropy raw = 0 ∨ calculate_name_entropy raw = 0.8 ∨
      calculate_name_entropy raw = 1 := by
  unfold calculate_name_entropy
  dsimp only
  split_ifs <;> norm_num

/-- The name-suspicion value lies in [0, 1]. -/
theorem calculate_name_entropy_bounds (raw : List Char) :
    0 ≤ calculate_name_entropy raw ∧ calculate_name_entropy raw ≤ 1 := by
  rcases calculate_name_entropy_mem raw with h | h | h <;> rw [h] <;> norm_num

/-- The seasonality factor lies in [0, 1]. -/
theorem check_seasonality_bounds (d : Option ℕ) :
    0 ≤ check_seasonality d ∧ check_seasonality d ≤ 1 := by
  cases d with
  | none => unfold check_seasonality; norm_num
  | some m =>
    unfold check_seasonality
    dsimp only
    split_ifs <;> norm_num

/-- The detector bonus is nonnegative. -/
theorem detectorBonus_nonneg (l : List Char) (s : ℝ) : 0 ≤ detectorBonus l s := by
  unfold detectorBonus
  split_ifs <;> norm_num

/-- The additive engine score is nonnegative. -/
theorem engineScore_nonneg (t b s : ℝ) (title : List Char) :
    0 ≤ engineScore t b s title := by
  unfold engineScore
  dsimp only
  refine add_nonneg (add_nonneg (add_nonneg (add_nonneg ?_ ?_) ?_) ?_) ?_
  · exact iteNonneg (by norm_num) (iteNonneg (by norm_num) le_rfl)
  · exact iteNonneg (by norm_num) le_rfl
  · exact iteNonneg (by norm_num) le_rfl
  · exact iteNonneg (by norm_num) le_rfl
  · exact iteNonneg (by norm_num) le_rfl

/-! ### Claim C3 -/

/-- Claim C3 (confirmed): for every combination of geometric features
and metadata, both scorers (the GPX detector total and the harvester
mushroom probability) produce a total score in the closed interval
[0, 100]. -/
theorem C3_score_bounded (track_name : List Char) (tortuosity avg_speed : ℝ)
    (month : Option ℕ) (t b s : ℝ) (title : List Char) :
    (0 ≤ detectorTotal track_name tortuosity avg_speed month ∧
      detectorTotal track_name tortuosity avg_speed month ≤ 100) ∧
    (0 ≤ engineProbability t b s title ∧ engineProbability t b s title ≤ 100) := by
  constructor
  · have hsp := speedScore_bounds avg_speed
    have hto := tortScore_bounds tortuosity
    have hna := calculate_name_entropy_bounds track_name
    have hse := check_seasonality_bounds month
    have hbo := detectorBonus_nonneg (lowerChars track_name) (tortScore tortuosity)
    unfold detectorTotal
    dsimp only
    split_ifs with h
    · norm_num
    · constructor
      · refine le_min (by norm_num) ?_
        nlinarith [hsp.1, hto.1, hna.1, hse.1, hbo]
      · exact min_le_left _ _
  · exact ⟨le_min (by norm_num) (engineScore_nonneg t b s title), min_le_left _ _⟩

/-! ### Claim C7 -/

/-- Claim C7 (confirmed): a classification result is persisted exactly
when its mushroom probability (0 when absent) strictly exceeds 20;
results at or below 20 are never written. -/
theorem C7_save_threshold (results : List Metadata) (m : Metadata) :
    m ∈ savedTracks results ↔
      m ∈ results ∧ 20 < m.mushroom_probability.getD 0 := by
  simp [savedTracks, shouldSave, List.mem_filter]

/-! ### Claim C10 -/

/-- Claim C10 (confirmed): with no extractable coordinates,
`analyze_track_deep` returns the metadata unchanged, and a metadata
record without a `mushroom_probability` key is never saved, because the
missing value defaults to 0, which does not exceed the threshold 20. -/
theorem C10_no_coords_passthrough (m : Metadata) :
    analyze_track_deep [] m = Except.ok m ∧
    (m.mushroom_probability = none → shouldSave m = false) := by
  refine ⟨by unfold analyze_track_deep; rfl, fun h => ?_⟩
  unfold shouldSave
  rw [h]
  norm_num [Option.getD]

/-- A metadata record as built by `scrape_grid_sector` before deep
analysis: the optional analysis fields are all absent. -/
noncomputable def sampleMeta : Metadata :=
  { external_id := "12345678", title := "morning walk".toList, total_dist_km := 5 }

/-- Witness for C10 at a concrete record. -/
theorem C10_no_coords_passthrough_witness :
    analyze_track_deep [] sampleMeta = Except.ok sampleMeta ∧
      shouldSave sampleMeta = false :=
  ⟨(C10_no_coords_passthrough sampleMeta).1,
    (C10_no_coords_passthrough sampleMeta).2 rfl⟩

/-! ### Claim C5 -/

/-- A 20-point track: enough points for a tortuosity value, too few for
the search-pattern statistics. -/
noncomputable def coords20 : List (ℝ × ℝ) := List.replicate 20 ((40 : ℝ), (-3 : ℝ))

/-- Claim C5 (code bug): for a sequence of 20 points the short branch of
`detect_search_patterns` returns a dictionary that lacks the
`bearing_std` key entirely (instead of reporting the value 0), so
`analyze_track_deep` raises a `KeyError` for every metadata input
instead of absorbing the short sequence; the tortuosity part of the
claim does hold (a 5-point sequence yields exactly 0). -/
theorem C5_short_sequence_keyerror :
    List.lookup "bearing_std" (detect_search_patterns coords20) = none ∧
    (∀ m : Metadata, analyze_track_deep coords20 m = Except.error "KeyError") ∧
    calculate_tortuosity (List.replicate 5 ((40 : ℝ), (-3 : ℝ))) = 0 := by
  have hlen : coords20.length = 20 := by simp [coords20]
  have hpat : detect_search_patterns coords20 =
      [("stops", PyVal.num 0), ("entropy", PyVal.num 0),
       ("is_search", PyVal.bool false)] := by
    unfold detect_search_patterns
    rw [if_pos (by rw [hlen]; norm_num)]
  refine ⟨by rw [hpat]; rfl, fun m => ?_, ?_⟩
  · unfold analyze_track_deep
    rw [if_neg (by simp [coords20])]
    rw [hpat]
    rfl
  · unfold calculate_tortuosity
    rw [if_pos (by simp)]
    norm_num

/-! ### Claim C6 -/

/-- Claim C6 counterexample: the speed component does not degrade
linearly on the low side of the band.  No positive slopes can describe
the code, because the score is the constant 80 for every speed below
0.5 km/h (evaluated here at 0.4 and 0.3). -/
theorem C6_not_linear_below_band :
    ¬ ∃ m1 m2 : ℝ, 0 < m1 ∧ 0 < m2 ∧
      (∀ v : ℝ, v < 0.5 → speedScore v = max 0 (100 - m1 * (0.5 - v))) ∧
      (∀ v : ℝ, 3.0 < v → speedScore v = max 0 (100 - m2 * (v - 3.0))) := by
  rintro ⟨m1, m2, hm1, hm2, hlow, -⟩
  have e4 : speedScore 0.4 = 80 := by unfold speedScore; norm_num
  have e3 : speedScore 0.3 = 80 := by unfold speedScore; norm_num
  have h4 := hlow 0.4 (by norm_num)
  have h3 := hlow 0.3 (by norm_num)
  rw [e4] at h4
  rw [e3] at h3
  have hx4 : 100 - m1 * (0.5 - 0.4) = 80 := by
    rcases le_or_lt (100 - m1 * (0.5 - 0.4)) 0 with h | h
    · rw [max_eq_left h] at h4; norm_num at h4
    · rw [max_eq_right h.le] at h4; linarith
  have hm1val : m1 = 200 := by nlinarith [hx4]
  rw [hm1val] at h3
  have hx3 : max (0 : ℝ) (100 - 200 * (0.5 - 0.3)) = 60 := by
    rw [max_eq_right (by norm_num)]
    norm_num
  rw [hx3] at h3
  norm_num at h3

/-- Claim C6 amended: the speed component is 100 exactly when the
average speed lies in the band [0.5, 3.0] km/h; below the band it is
the constant 80 (no degradation); above the band it degrades linearly
at 40 points per km/h with a floor of 0, and it is always nonnegative. -/
theorem C6_speed_band (v : ℝ) :
    (speedScore v = 100 ↔ 0.5 ≤ v ∧ v ≤ 3.0) ∧
    (v < 0.5 → speedScore v = 80) ∧
    (3.0 < v → speedScore v = max 0 (100 - (v - 3) * 40)) ∧
    0 ≤ speedScore v := by
  refine ⟨?_, ?_, ?_, (speedScore_bounds v).1⟩
  · unfold speedScore
    split_ifs with h1 h2
    · simp [h1]
    · constructor
      · intro h; norm_num at h
      · intro h; exact absurd h h1
    · push_neg at h1 h2
      have h3 : 3.0 < v := h1 h2
      constructor
      · intro h
        rcases max_cases (0 : ℝ) (100 - (v - 3) * 40) with ⟨he, -⟩ | ⟨he, -⟩ <;>
          rw [he] at h <;> nlinarith
      · rintro ⟨-, hb⟩
        linarith
  · intro h
    unfold speedScore
    rw [if_neg (by rintro ⟨h5, -⟩; linarith), if_pos h]
  · intro h
    unfold speedScore
    rw [if_neg (by rintro ⟨-, h3⟩; linarith), if_neg (by linarith)]

/-- Witness for the amended C6 at the in-band speed 1 km/h. -/
theorem C6_speed_band_witness : speedScore 1 = 100 :=
  (C6_speed_band 1).1.mpr (by norm_num)

/-! ### Claim C8 -/

/-- Claim C8 counterexample: the repeated-character title "aaaa" does
not score maximal suspicion in the detector; it falls through to the
entropy/short-title branch and scores 0.8, not 1. -/
theorem C8_repeated_chars_not_maximal :
    calculate_name_entropy "aaaa".toList = 0.8 ∧ (0.8 : ℝ) ≠ 1 := by
  constructor
  · unfold calculate_name_entropy
    rw [show stripChars (lowerChars "aaaa".toList) = "aaaa".toList from by decide]
    rw [if_neg (by decide), if_neg (by decide),
      if_pos (Or.inr (by decide : "aaaa".toList.length < 5))]
  · norm_num

/-- Claim C8 amended: the detector component scores maximal suspicion
(1) exactly when the lowered, stripped title CONTAINS a denylist term
as a substring (not only on an exact match); every other title scores
0 or 0.8 via the Shannon-entropy/short-title branch, so the value is
always in [0, 1].  The boolean scraper check separately flags the exact
denylist matches and repeated-character titles such as "aaaaa". -/
theorem C8_name_suspicion (raw : List Char) :
    (0 ≤ calculate_name_entropy raw ∧ calculate_name_entropy raw ≤ 1) ∧
    (containsAnySub suspiciousList (stripChars (lowerChars raw)) = true →
      calculate_name_entropy raw = 1) ∧
    (containsAnySub suspiciousList (stripChars (lowerChars raw)) = false →
      calculate_name_entropy raw = 0 ∨ calculate_name_entropy raw = 0.8) ∧
    (∀ t : List Char, t ∈ genericNames → is_obfuscated_title t = true) ∧
    is_obfuscated_title (List.replicate 5 'a') = true := by
  refine ⟨calculate_name_entropy_bounds raw, ?_, ?_, ?_, by decide⟩
  · intro h
    unfold calculate_name_entropy
    rw [if_pos h]
    norm_num
  · intro h
    unfold calculate_name_entropy
    dsimp only
    rw [if_neg (by rw [h]; simp)]
    split_ifs <;> norm_num
  · intro t ht
    fin_cases ht <;> decide

/-- Witness for the amended C8: the title "track" contains a denylist
term and scores maximal suspicion. -/
theorem C8_name_suspicion_witness : calculate_name_entropy "track".toList = 1 :=
  (C8_name_suspicion "track".toList).2.1 (by decide)

/-! ### Claim C9 -/

/-- The sine of one degree is positive. -/
theorem sin_pi_div_180_pos : 0 < Real.sin (Real.pi / 180) :=
  Real.sin_pos_of_pos_of_lt_pi (by positivity) (by nlinarith [Real.pi_pos])

/-- `atan2` of a positive value over zero is pi over two. -/
theorem atan2_pos_zero {y : ℝ} (hy : 0 < y) : atan2 y 0 = Real.pi / 2 := by
  unfold atan2
  rw [if_neg (by norm_num), if_neg (by simp), if_neg (by simp), if_pos hy]

/-- `atan2` of a negative value over zero is minus pi over two. -/
theorem atan2_neg_zero {y : ℝ} (hy : y < 0) : atan2 y 0 = -(Real.pi / 2) := by
  unfold atan2
  rw [if_neg (by norm_num), if_neg (by simp), if_neg (by simp),
    if_neg (by linarith), if_pos hy]

/-- Due-east bearing on the equator: from (0, 0) to (0, 1) the bearing
is exactly 90 degrees. -/
theorem bearing_east : bearing ((0 : ℝ), (0 : ℝ)) ((0 : ℝ), (1 : ℝ)) = 90 := by
  unfold bearing radians
  dsimp only
  simp only [zero_mul, one_mul, sub_zero, Real.cos_zero, Real.sin_zero,
    mul_zero, zero_sub, mul_one, neg_zero]
  rw [atan2_pos_zero sin_pi_div_180_pos]
  unfold degrees
  field_simp
  ring

/-- Due-west bearing on the equator: from (0, 1) to (0, 0) the bearing
is exactly -90 degrees. -/
theorem bearing_west : bearing ((0 : ℝ), (1 : ℝ)) ((0 : ℝ), (0 : ℝ)) = -90 := by
  unfold bearing radians
  dsimp only
  simp only [zero_mul, one_mul, zero_sub, Real.cos_zero, Real.sin_zero,
    mul_zero, mul_one, sub_zero, neg_zero, Real.sin_neg]
  rw [atan2_neg_zero (neg_neg_iff_pos.mpr sin_pi_div_180_pos)]
  unfold degrees
  field_simp
  ring

/-- Normalizing a bearing delta of exactly -180 yields -180, which is
outside the half-open interval (-180, 180]. -/
theorem normalizeDelta_neg180 : normalizeDelta (-180) = -180 := by
  unfold normalizeDelta npMod
  norm_num

/-- A 50-point sequence on the equator whose first three points step
east and back, producing a bearing reversal of exactly 180 degrees. -/
noncomputable def zigzagCoords : List (ℝ × ℝ) :=
  ((0 : ℝ), (0 : ℝ)) :: ((0 : ℝ), (1 : ℝ)) :: ((0 : ℝ), (0 : ℝ)) ::
    List.replicate 47 ((0 : ℝ), (0 : ℝ))

/-- Claim C9 counterexample: it is not true that for every sequence of
at least 50 points each normalized bearing delta lies in the half-open
interval (-180, 180].  On `zigzagCoords` (length 50) the first delta is
exactly -180, the excluded left endpoint: the code's normalization
`(d + 180) % 360 - 180` has range [-180, 180). -/
theorem C9_delta_not_in_Ioc :
    ¬ (∀ coords : List (ℝ × ℝ), 50 ≤ coords.length →
        ∀ d ∈ normDeltas coords, d ∈ Set.Ioc (-180 : ℝ) 180) := by
  intro hclaim
  have hlen : (50 : ℕ) ≤ zigzagCoords.length := by simp [zigzagCoords]
  have hmem : (-180 : ℝ) ∈ normDeltas zigzagCoords := by
    unfold normDeltas zigzagCoords
    rw [show bearingsOf (((0 : ℝ), (0 : ℝ)) :: ((0 : ℝ), (1 : ℝ)) ::
          ((0 : ℝ), (0 : ℝ)) :: List.replicate 47 ((0 : ℝ), (0 : ℝ))) =
        bearing ((0 : ℝ), (0 : ℝ)) ((0 : ℝ), (1 : ℝ)) ::
          bearing ((0 : ℝ), (1 : ℝ)) ((0 : ℝ), (0 : ℝ)) ::
          bearingsOf (((0 : ℝ), (0 : ℝ)) :: List.replicate 47 ((0 : ℝ), (0 : ℝ)))
      from rfl]
    rw [bearing_east, bearing_west]
    rw [show diffsOf ((90 : ℝ) :: (-90 : ℝ) ::
          bearingsOf (((0 : ℝ), (0 : ℝ)) :: List.replicate 47 ((0 : ℝ), (0 : ℝ)))) =
        ((-90 : ℝ) - 90) :: diffsOf ((-90 : ℝ) ::
          bearingsOf (((0 : ℝ), (0 : ℝ)) :: List.replicate 47 ((0 : ℝ), (0 : ℝ))))
      from rfl]
    rw [List.map_cons]
    rw [show ((-90 : ℝ) - 90) = -180 from by norm_num, normalizeDelta_neg180]
    exact List.mem_cons_self _ _
  have h := hclaim zigzagCoords hlen (-180) hmem
  exact absurd h.1 (by norm_num)

/-- numpy modulo by 360 lies in [0, 360). -/
theorem npMod_bounds (x : ℝ) : 0 ≤ npMod x 360 ∧ npMod x 360 < 360 := by
  unfold npMod
  constructor
  · have h := Int.floor_le (x / 360)
    linarith
  · have h := Int.lt_floor_add_one (x / 360)
    linarith

/-- Claim C9 amended: each bearing delta is normalized by
`(d + 180) % 360 - 180` into the half-open interval [-180, 180) (closed
on the left, open on the right), and for sequences of at least 50
points the reported `bearing_std` is exactly the population standard
deviation of these normalized deltas (for shorter sequences the key is
absent from the result). -/
theorem C9_normalization_and_std :
    (∀ d : ℝ, normalizeDelta d ∈ Set.Ico (-180 : ℝ) 180) ∧
    (∀ coords : List (ℝ × ℝ),
      List.lookup "bearing_std" (detect_search_patterns coords) =
        if coords.length < 50 then none
        else some (PyVal.num (popStd (normDeltas coords)))) := by
  constructor
  · intro d
    have h := npMod_bounds (d + 180)
    unfold normalizeDelta
    exact Set.mem_Ico.mpr ⟨by linarith [h.1], by linarith [h.2]⟩
  · intro coords
    unfold detect_search_patterns
    split_ifs with h
    · rfl
    · rfl

/-! ### Claim C1 -/

/-- Base-2 logarithm of 1/8. -/
theorem logb_two_eighth : Real.logb 2 ((1 : ℝ) / 8) = -3 := by
  rw [Real.logb_div (by norm_num) (by norm_num)]
  rw [show (8 : ℝ) = 2 ^ (3 : ℕ) from by norm_num, Real.logb_pow,
    Real.logb_self_eq_one (by norm_num)]
  simp

/-- Base-2 logarithm of 3/8. -/
theorem logb_two_three_eighths :
    Real.logb 2 ((3 : ℝ) / 8) = Real.logb 2 3 - 3 := by
  rw [Real.logb_div (by norm_num) (by norm_num)]
  rw [show (8 : ℝ) = 2 ^ (3 : ℕ) from by norm_num, Real.logb_pow,
    Real.logb_self_eq_one (by norm_num)]
  norm_num

/-- The Shannon entropy of the title "setanada" in closed form: the
character counts are 1,1,1,3,1,1 over length 8. -/
theorem shannonEntropy_setanada :
    shannonEntropy "setanada".toList = 3 - (3 / 8) * Real.logb 2 3 := by
  have hd : dedupFirst "setanada".toList = "setand".toList := by decide
  have hlen : ("setanada".toList.length : ℝ) = 8 := by norm_num
  have cs : ("setanada".toList.count 's' : ℝ) = 1 := by
    rw [show "setanada".toList.count 's' = 1 from by decide]; norm_num
  have ce : ("setanada".toList.count 'e' : ℝ) = 1 := by
    rw [show "setanada".toList.count 'e' = 1 from by decide]; norm_num
  have ct : ("setanada".toList.count 't' : ℝ) = 1 := by
    rw [show "setanada".toList.count 't' = 1 from by decide]; norm_num
  have ca : ("setanada".toList.count 'a' : ℝ) = 3 := by
    rw [show "setanada".toList.count 'a' = 3 from by decide]; norm_num
  have cn : ("setanada".toList.count 'n' : ℝ) = 1 := by
    rw [show "setanada".toList.count 'n' = 1 from by decide]; norm_num
  have cd : ("setanada".toList.count 'd' : ℝ) = 1 := by
    rw [show "setanada".toList.count 'd' = 1 from by decide]; norm_num
  unfold shannonEntropy
  rw [hd]
  rw [show "setand".toList = ['s', 'e', 't', 'a', 'n', 'd'] from by decide]
  simp only [List.map_cons, List.map_nil, List.sum_cons, List.sum_nil]
  rw [hlen, cs, ce, ct, ca, cn, cd]
  rw [logb_two_eighth, logb_two_three_eighths]
  ring

/-- The entropy of "setanada" reaches the 1.5 threshold, because
`logb 2 3 ≤ 4`. -/
theorem shannonEntropy_setanada_ge :
    (1.5 : ℝ) ≤ shannonEntropy "setanada".toList := by
  rw [shannonEntropy_setanada]
  have h16 : Real.logb 2 (16 : ℝ) = 4 := by
    rw [show (16 : ℝ) = 2 ^ (4 : ℕ) from by norm_num, Real.logb_pow,
      Real.logb_self_eq_one (by norm_num)]
    norm_num
  have hmono : Real.logb 2 (3 : ℝ) ≤ Real.logb 2 (16 : ℝ) :=
    Real.logb_le_logb_of_le (by norm_num) (by norm_num) (by norm_num)
  rw [h16] at hmono
  linarith

/-- The title "setanada" scores zero name suspicion: it contains no
suspicious term, it is 8 characters long, and its entropy is above 1.5. -/
theorem calculate_name_entropy_setanada :
    calculate_name_entropy "setanada".toList = 0 := by
  unfold calculate_name_entropy
  rw [show stripChars (lowerChars "setanada".toList) = "setanada".toList
    from by decide]
  rw [if_neg (by decide), if_neg (by decide), if_neg ?hcond]
  case hcond =>
    rintro (h | h)
    · exact absurd h (not_lt.mpr shannonEntropy_setanada_ge)
    · exact absurd h (by decide)
  norm_num

/-- Claim C1 counterexample: the title "setanada" contains the explicit
keyword "seta", yet the detector total is 94.875, not 100.  The title
also contains "nada" and the tortuosity component (for tortuosity 3.3)
is 52.5 > 50, so the bonus is 150, the `bonus == 100` override does not
fire, and the capped total stays below 100. -/
theorem C1_keyword_without_full_score :
    containsAnySub detectorKeywords (lowerChars "setanada".toList) = true ∧
    detectorTotal "setanada".toList 3.3 5.5 (some 2) ≠ 100 := by
  refine ⟨by decide, ?_⟩
  have hspeed : speedScore 5.5 = 0 := by
    unfold speedScore
    rw [if_neg (by rintro ⟨-, h⟩; linarith), if_neg (by norm_num)]
    norm_num
  have htort : tortScore 3.3 = 52.5 := by
    unfold tortScore
    rw [min_eq_right (by norm_num), max_eq_right (by norm_num)]
    norm_num
  have hname := calculate_name_entropy_setanada
  have hseason : check_seasonality (some 2) = 0.1 := by
    unfold check_seasonality
    norm_num
  have hbonus :
      detectorBonus (lowerChars "setanada".toList) (tortScore 3.3) = 150 := by
    unfold detectorBonus
    rw [htort]
    rw [if_pos (by decide), if_pos ⟨by decide, by norm_num⟩]
    norm_num
  unfold detectorTotal
  dsimp only
  rw [hspeed, hname, hseason, hbonus, htort]
  rw [if_neg (by norm_num)]
  rw [min_eq_right (by norm_num)]
  norm_num

/-- Claim C1 amended: an explicit keyword forces the full score of 100
in the harvester engine unconditionally, and in the GPX detector
whenever the "nada"-with-high-tortuosity side bonus does not also fire
(with it the bonus becomes 150 and the total can stay below 100, as the
counterexample shows). -/
theorem C1_keyword_override
    (tort bstd sr : ℝ) (title : List Char)
    (hk : containsAnySub engineKeywords (lowerChars title) = true)
    (track_name : List Char) (tortuosity avg_speed : ℝ) (month : Option ℕ)
    (hk2 : containsAnySub detectorKeywords (lowerChars track_name) = true)
    (hnada : ¬ (containsSub (lowerChars track_name) nadaChars = true ∧
        50 < tortScore tortuosity)) :
    engineProbability tort bstd sr title = 100 ∧
    detectorTotal track_name tortuosity avg_speed month = 100 := by
  constructor
  · have h1 : (0 : ℝ) ≤
        (if 2.5 < tort then 30 else if 1.5 < tort then (15 : ℝ) else 0) :=
      iteNonneg (by norm_num) (iteNonneg (by norm_num) le_rfl)
    have h2 : (0 : ℝ) ≤ (if 40 < bstd then (20 : ℝ) else 0) :=
      iteNonneg (by norm_num) le_rfl
    have h3 : (0 : ℝ) ≤ (if 0.3 < sr then (10 : ℝ) else 0) :=
      iteNonneg (by norm_num) le_rfl
    have h4 : (0 : ℝ) ≤
        (if containsAnySub genericKeywords (lowerChars title) = true ∧
            1.8 < tort then (30 : ℝ) else 0) :=
      iteNonneg (by norm_num) le_rfl
    have h100 : (100 : ℝ) ≤ engineScore tort bstd sr title := by
      unfold engineScore
      dsimp only
      rw [if_pos hk]
      linarith
    unfold engineProbability
    rw [min_eq_left h100]
  · have hb : detectorBonus (lowerChars track_name) (tortScore tortuosity) = 100 := by
      unfold detectorBonus
      rw [if_pos hk2, if_neg hnada]
      norm_num
    unfold detectorTotal
    dsimp only
    rw [hb, if_pos rfl]

/-- Witness for the amended C1 at the explicit keyword title "boletus"
with harmless geometry. -/
theorem C1_keyword_override_witness :
    engineProbability 1 0 0 "boletus".toList = 100 ∧
    detectorTotal "boletus".toList 1 1 none = 100 :=
  C1_keyword_override 1 0 0 "boletus".toList (by decide)
    "boletus".toList 1 1 none (by decide)
    (fun h => absurd h.1 (by decide))

end Wikscr
